import Mathlib

/-!
Shallow embedding of the account-operations facade of PyCharacterAI
(src/PyCharacterAI/methods/synchronous/account.py).

Each operation of the `AccountMethods` class is translated to a pure Lean
function.  The HTTP layer is represented explicitly: an operation receives the
`Response` the Requester double would return for each request it performs, and
returns, besides its result, the list of `Request`s it issued (URL, method and
structured body).  JSON values are modelled by an inductive type and Python
truthiness of decoded JSON values by `JSON.truthy`.  Python exceptions are
modelled by `Except Err`, where `Err` enumerates the typed library errors plus
the interpreter-level errors (attribute and type errors) the code can hit.
-/

namespace PyCharacterAI

/-- A decoded JSON value, as returned by the json accessor of a response. -/
inductive JSON where
  | null : JSON
  | bool : Bool → JSON
  | num : Int → JSON
  | str : String → JSON
  | arr : List JSON → JSON
  | obj : List (String × JSON) → JSON

/-- Python truthiness of a decoded JSON value (None, False, 0, empty string,
empty list and empty dict are falsy, everything else truthy). -/
def JSON.truthy : JSON → Bool
  | .null => false
  | .bool b => b
  | .num n => n != 0
  | .str s => s != ""
  | .arr xs => !xs.isEmpty
  | .obj kvs => !kvs.isEmpty

/-- Python dict lookup over an association list of JSON object fields:
first binding of the key, if any. -/
def getKey : List (String × JSON) → String → Option JSON
  | [], _ => none
  | (k, v) :: rest, key => if k = key then some v else getKey rest key

/-- Python dict.get with a default value. -/
def getKeyD (kvs : List (String × JSON)) (key : String) (d : JSON) : JSON :=
  (getKey kvs key).getD d

/-- Python dict item assignment: replace the value at the first binding of the
key, keeping its position, or append a new binding at the end. -/
def setKey : List (String × JSON) → String → JSON → List (String × JSON)
  | [], key, v => [(key, v)]
  | (k, w) :: rest, key, v =>
      if k = key then (k, v) :: rest else (k, w) :: setKey rest key v

/-- Rough Python string rendering of a JSON value, used only to build error
message texts that interpolate a server-supplied value. -/
def JSON.display : JSON → String
  | .null => "None"
  | .bool true => "True"
  | .bool false => "False"
  | .num n => toString n
  | .str s => s
  | .arr _ => "<list>"
  | .obj _ => "<dict>"

/-- Typed errors of the library (exceptions.py) plus the interpreter-level
errors reachable in this module: attributeError models an AttributeError such
as calling a method on None, typeError models a TypeError. -/
inductive Err where
  | fetchError : String → Err
  | editError : String → Err
  | updateError : String → Err
  | createError : String → Err
  | setError : String → Err
  | deleteError : String → Err
  | invalidArgumentError : String → Err
  | attributeError : String → Err
  | typeError : String → Err
deriving DecidableEq

/-- A response produced by the Requester double: HTTP status code and the
decoded JSON body (all bodies this module reads are JSON objects). -/
structure Response where
  status_code : Nat
  body : List (String × JSON)

/-- A request issued through the Requester: URL, HTTP method, and the
structured JSON payload that the code serializes into the body (none when no
body is sent, as in GET requests and the voice-override delete). -/
structure Request where
  url : String
  method : String
  body : Option JSON

/-- The Account constructor is an external field-mapping value object; we keep
the raw JSON it was applied to. -/
structure Account where
  raw : JSON

/-- The Persona constructor applied to a raw JSON value (fetch results). -/
structure RawPersona where
  raw : JSON

/-- The CharacterShort constructor applied to a raw JSON value. -/
structure RawCharacterShort where
  raw : JSON

/-- The Voice constructor applied to a raw JSON value. -/
structure RawVoice where
  raw : JSON

/-- Python iteration over a decoded JSON value: lists yield their elements,
strings their characters, dicts their keys; other values raise TypeError. -/
def pyIter : JSON → Except Err (List JSON)
  | .arr xs => .ok xs
  | .str s => .ok (s.toList.map fun c => .str (String.mk [c]))
  | .obj kvs => .ok (kvs.map fun kv => .str kv.1)
  | _ => .error (.typeError "object is not iterable")

/-- fetch_me: GET /chat/user/; on 200 returns Account(json().get(&user&).get(&user&)).
The outer get returns None when the user field is missing or JSON null, and
calling .get on None (or on a non-dict) raises AttributeError. -/
def fetch_me (resp : Response) : Except Err Account :=
  if resp.status_code = 200 then
    match getKey resp.body "user" with
    | some (.obj kvs) => .ok ⟨getKeyD kvs "user" .null⟩
    | _ => .error (.attributeError "object has no attribute get")
  else .error (.fetchError "Cannot fetch your account.")

/-- fetch_my_settings: GET /chat/user/settings/; on 200 returns the whole
decoded JSON body. -/
def fetch_my_settings (resp : Response) : Except Err (List (String × JSON)) :=
  if resp.status_code = 200 then .ok resp.body
  else .error (.fetchError "Cannot fetch your settings.")

/-- fetch_my_followers: GET /chat/user/followers/; on 200 returns
json().get(followers, []). -/
def fetch_my_followers (resp : Response) : Except Err JSON :=
  if resp.status_code = 200 then .ok (getKeyD resp.body "followers" (.arr []))
  else .error (.fetchError "Cannot fetch your followers.")

/-- fetch_my_following: GET /chat/user/following/; on 200 returns
json().get(following, []). -/
def fetch_my_following (resp : Response) : Except Err JSON :=
  if resp.status_code = 200 then .ok (getKeyD resp.body "following" (.arr []))
  else .error (.fetchError "Cannot fetch your following.")

/-- fetch_my_persona: GET /chat/persona/?id=...; on 200 reads
json().get(persona, None) and returns Persona(persona) when that value is
truthy; in every other case raises FetchError. -/
def fetch_my_persona (resp : Response) : Except Err RawPersona :=
  if resp.status_code = 200 then
    let persona := getKeyD resp.body "persona" .null
    if persona.truthy then .ok ⟨persona⟩
    else .error (.fetchError "Cannot fetch your persona. Maybe persona does not exist?")
  else .error (.fetchError "Cannot fetch your persona. Maybe persona does not exist?")

/-- fetch_my_personas: GET /chat/personas/?force_refresh=1; on 200 iterates
json().get(personas, []) and maps each raw item through the Persona
constructor. -/
def fetch_my_personas (resp : Response) : Except Err (List RawPersona) :=
  if resp.status_code = 200 then
    match pyIter (getKeyD resp.body "personas" (.arr [])) with
    | .ok xs => .ok (xs.map fun j => (⟨j⟩ : RawPersona))
    | .error e => .error e
  else .error (.fetchError "Cannot fetch your personas.")

/-- fetch_my_characters: GET /chat/characters/?scope=user; on 200 iterates
json().get(characters, []) and maps each item through CharacterShort. -/
def fetch_my_characters (resp : Response) : Except Err (List RawCharacterShort) :=
  if resp.status_code = 200 then
    match pyIter (getKeyD resp.body "characters" (.arr [])) with
    | .ok xs => .ok (xs.map fun j => (⟨j⟩ : RawCharacterShort))
    | .error e => .error e
  else .error (.fetchError "Cannot fetch your characters.")

/-- fetch_my_upvoted_characters: GET /chat/user/characters/upvoted/; on 200
iterates json().get(characters, []) and maps each item through
CharacterShort. -/
def fetch_my_upvoted_characters (resp : Response) : Except Err (List RawCharacterShort) :=
  if resp.status_code = 200 then
    match pyIter (getKeyD resp.body "characters" (.arr [])) with
    | .ok xs => .ok (xs.map fun j => (⟨j⟩ : RawCharacterShort))
    | .error e => .error e
  else .error (.fetchError "Cannot fetch your upvoted characters.")

/-- fetch_my_voices: GET multimodal/api/v1/voices/user; on 200 iterates
json().get(voices, []) and maps each item through Voice. -/
def fetch_my_voices (resp : Response) : Except Err (List RawVoice) :=
  if resp.status_code = 200 then
    match pyIter (getKeyD resp.body "voices" (.arr [])) with
    | .ok xs => .ok (xs.map fun j => (⟨j⟩ : RawVoice))
    | .error e => .error e
  else .error (.fetchError "Cannot fetch your voices.")

/-- Python equality test of a decoded JSON value against a string literal
(a non-string JSON value never equals a Python string). -/
def JSON.eqStr : JSON → String → Bool
  | .str t, s => t == s
  | _, _ => false

/-- Python is-None test on a decoded JSON value (JSON null decodes to None). -/
def JSON.isNone : JSON → Bool
  | .null => true
  | _ => false

/-- Python truthiness of an optional string argument: None and the empty
string are falsy. -/
def optStrTruthy : Option String → Bool
  | none => false
  | some s => s != ""

/-- The GET request issued by fetch_my_settings. -/
def settingsFetchRequest : Request :=
  ⟨"https://plus.character.ai/chat/user/settings/", "GET", none⟩

/-- The GET request issued by fetch_my_persona for a given persona id. -/
def fetchPersonaRequest (persona_id : String) : Request :=
  ⟨"https://plus.character.ai/chat/persona/?id=" ++ persona_id, "GET", none⟩

/-- edit_account: validates username, name and bio lengths, then POSTs the new
account info to /chat/user/update/.  The update succeeds on HTTP 200 with JSON
status OK; a 200 with a different status raises EditError with the status text
attached, and a non-200 raises a plain EditError.  The returned list records
the requests actually issued: empty when validation fails.  The first guard is
transcribed exactly as written in the source: it tests the NAME length against
20, not the username length, while its message speaks about the username. -/
def edit_account (name username bio avatar_rel_path : String) (resp : Response) :
    Except Err Bool × List Request :=
  if username.length < 2 ∨ name.length > 20 then
    (.error (.invalidArgumentError
      "Cannot edit account info. Username must be at least 2 characters and no more than 20."), [])
  else if name.length < 2 ∨ name.length > 50 then
    (.error (.invalidArgumentError
      "Cannot edit account info. Name must be at least 2 characters and no more than 50."), [])
  else if bio.length > 500 then
    (.error (.invalidArgumentError
      "Cannot edit account info. Bio must be no more than 500 characters."), [])
  else
    let base : List (String × JSON) :=
      [("avatar_type", .str (if avatar_rel_path ≠ "" then "UPLOADED" else "DEFAULT")),
       ("bio", .str bio),
       ("name", .str name),
       ("username", .str username)]
    let info := if avatar_rel_path ≠ "" then base ++ [("avatar_rel_path", .str avatar_rel_path)] else base
    let req : Request := ⟨"https://plus.character.ai/chat/user/update/", "POST", some (.obj info)⟩
    let result : Except Err Bool :=
      if resp.status_code = 200 then
        let status := getKeyD resp.body "status" (.str "")
        if status.eqStr "OK" then .ok true
        else .error (.editError ("Cannot edit account info. " ++ status.display))
      else .error (.editError "Cannot edit account info.")
    (result, [req])

/-- Options dictionary passed to the private settings update (absent keys are
modelled as none, matching options.get(key, None)). -/
structure SettingsOptions where
  default_persona_id : Option String
  persona_override : Option String
  voice_override : Option String
  character_id : Option String

/-- The private __update_settings: fails immediately (no request) when
default_persona_id, persona_override and voice_override are all unset; else
fetches the current settings, patches default_persona_id when given and nests
a persona override under personaOverrides keyed by character_id, then POSTs
the full settings object to /chat/user/update_settings/.  Success requires
HTTP 200 and a truthy JSON success flag and returns the settings sub-object
of the response; any failure raises UpdateError (a failing settings fetch
propagates its own FetchError).  The request list records, in order, the
settings GET and the update POST with its structured payload. -/
def update_settings (opts : SettingsOptions) (fetchResp postResp : Response) :
    Except Err JSON × List Request :=
  if opts.default_persona_id = none ∧ opts.persona_override = none ∧
      opts.voice_override = none then
    (.error (.updateError "Cannot update account settings."), [])
  else
    match fetch_my_settings fetchResp with
    | .error e => (.error e, [settingsFetchRequest])
    | .ok settings =>
      let s1 := match opts.default_persona_id with
        | some d => setKey settings "default_persona_id" (.str d)
        | none => settings
      let patched : Except Err (List (String × JSON)) :=
        match opts.persona_override, opts.character_id with
        | some p, some c =>
          match getKeyD s1 "personaOverrides" (.obj []) with
          | .obj kvs => .ok (setKey s1 "personaOverrides" (.obj (setKey kvs c (.str p))))
          | _ => .error (.typeError "object does not support item assignment")
        | _, _ => .ok s1
      match patched with
      | .error e => (.error e, [settingsFetchRequest])
      | .ok s2 =>
        let postReq : Request :=
          ⟨"https://plus.character.ai/chat/user/update_settings/", "POST", some (.obj s2)⟩
        let result : Except Err JSON :=
          if postResp.status_code = 200 ∧ (getKeyD postResp.body "success" (.bool false)).truthy then
            .ok (getKeyD postResp.body "settings" .null)
          else .error (.updateError "Cannot update account settings.")
        (result, [settingsFetchRequest, postReq])

/-- set_default_persona: coerces a None persona id to the empty string, calls
the private settings update with default_persona_id only, and returns true on
success; any exception from the update is caught and re-raised as SetError. -/
def set_default_persona (persona_id : Option String) (fetchResp postResp : Response) :
    Except Err Bool × List Request :=
  let pid := persona_id.getD ""
  match update_settings ⟨some pid, none, none, none⟩ fetchResp postResp with
  | (.ok _, reqs) => (.ok true, reqs)
  | (.error _, reqs) => (.error (.setError "Cannot set default persona."), reqs)

/-- unset_default_persona delegates to set_default_persona with None. -/
def unset_default_persona (fetchResp postResp : Response) :
    Except Err Bool × List Request :=
  set_default_persona none fetchResp postResp

/-- set_persona: coerces a None persona id to the empty string, calls the
private settings update with persona_override and character_id, and returns
true on success; any exception from the update is caught and re-raised as
SetError. -/
def set_persona (character_id : String) (persona_id : Option String)
    (fetchResp postResp : Response) : Except Err Bool × List Request :=
  let pid := persona_id.getD ""
  match update_settings ⟨none, some pid, none, some character_id⟩ fetchResp postResp with
  | (.ok _, reqs) => (.ok true, reqs)
  | (.error _, reqs) => (.error (.setError "Cannot set persona."), reqs)

/-- unset_persona delegates to set_persona with None. -/
def unset_persona (character_id : String) (fetchResp postResp : Response) :
    Except Err Bool × List Request :=
  set_persona character_id none fetchResp postResp

/-- The URL of the per-character voice_override endpoint, meth being update
or delete. -/
def voiceOverrideUrl (character_id meth : String) : String :=
  "https://plus.character.ai/chat/character/" ++ character_id ++ "/voice_override/" ++ meth ++ "/"

/-- set_voice: POSTs to the per-character voice_override update path with body
voice_id when the given voice id is truthy, or to the delete path with no body
when it is falsy; returns true on HTTP 200 with a truthy JSON success flag and
raises SetError otherwise. -/
def set_voice (character_id : String) (voice_id : Option String) (resp : Response) :
    Except Err Bool × List Request :=
  let meth := if optStrTruthy voice_id then "update" else "delete"
  let reqBody : Option JSON :=
    if optStrTruthy voice_id then some (.obj [("voice_id", .str (voice_id.getD ""))]) else none
  let req : Request := ⟨voiceOverrideUrl character_id meth, "POST", reqBody⟩
  let result : Except Err Bool :=
    if resp.status_code = 200 ∧ (getKeyD resp.body "success" (.bool false)).truthy then
      .ok true
    else .error (.setError "Cannot set voice.")
  (result, [req])

/-- unset_voice delegates to set_voice with None. -/
def unset_voice (character_id : String) (resp : Response) :
    Except Err Bool × List Request :=
  set_voice character_id none resp

/-- Typed persona as produced by the external Persona constructor, restricted
to the attributes the facade reads back: name, definition, avatar (None or a
file name, read through avatar.get_file_name()), author_username; greeting is
carried as well, per the data model of the specification (the Persona value
object itself lives outside this module). -/
structure Persona where
  name : String
  definition : String
  greeting : String
  avatarFileName : Option String
  authorUsername : String

/-- The full-replacement payload edit_persona POSTs, built from the previously
fetched persona and the caller-supplied arguments: definition and name (and
participant__name) fall back to the old values when the argument is empty,
title is the raw name argument, both avatar fields start from the old avatar
file name and are overwritten together when a new avatar path is given. -/
def edit_persona_payload (persona_id name definition avatar_rel_path : String)
    (old : Persona) (account_id : String) : List (String × JSON) :=
  let avatarName := old.avatarFileName.getD ""
  let base : List (String × JSON) :=
    [("avatar_file_name", .str avatarName),
     ("avatar_rel_path", .str avatarName),
     ("copyable", .bool false),
     ("default_voice_id", .str ""),
     ("definition", .str (if definition = "" then old.definition else definition)),
     ("description", .str "This is my persona."),
     ("enabled", .bool false),
     ("external_id", .str persona_id),
     ("greeting", .str "Hello! This is my persona"),
     ("img_gen_enabled", .bool false),
     ("is_persona", .bool true),
     ("name", .str (if name = "" then old.name else name)),
     ("participant__name", .str (if name = "" then old.name else name)),
     ("participant__num_interactions", .num 0),
     ("title", .str name),
     ("user__id", .str account_id),
     ("user__username", .str old.authorUsername),
     ("visibility", .str "PRIVATE")]
  if avatar_rel_path = "" then base
  else setKey (setKey base "avatar_file_name" (.str avatar_rel_path))
    "avatar_rel_path" (.str avatar_rel_path)

/-- edit_persona: validates name (3 to 20 when non-empty) and definition (at
most 728 when non-empty) before any request; then fetches the existing persona
(modelled by the fetchOutcome argument), turning any fetch exception into
EditError; builds the full-replacement payload and POSTs it to
/chat/persona/update/.  Success requires HTTP 200, JSON status OK and a
persona field that is not None, and yields the returned persona; otherwise
EditError. -/
def edit_persona (persona_id name definition avatar_rel_path : String)
    (fetchOutcome : Except Err Persona) (account_id : String) (resp : Response) :
    Except Err RawPersona × List Request :=
  if name ≠ "" ∧ (name.length < 3 ∨ name.length > 20) then
    (.error (.invalidArgumentError
      "Cannot edit persona. Name must be at least 3 characters and no more than 20."), [])
  else if definition ≠ "" ∧ definition.length > 728 then
    (.error (.invalidArgumentError
      "Cannot edit persona. Definition must be no more than 728 characters."), [])
  else
    match fetchOutcome with
    | .error _ =>
      (.error (.editError "Cannot edit persona. May be persona does not exist?"),
       [fetchPersonaRequest persona_id])
    | .ok old =>
      let payload := edit_persona_payload persona_id name definition avatar_rel_path old account_id
      let req : Request :=
        ⟨"https://plus.character.ai/chat/persona/update/", "POST", some (.obj payload)⟩
      let result : Except Err RawPersona :=
        if resp.status_code = 200 then
          if (getKeyD resp.body "status" .null).eqStr "OK" ∧
              !(getKeyD resp.body "persona" .null).isNone then
            .ok ⟨getKeyD resp.body "persona" .null⟩
          else .error (.editError
            ("Cannot edit persona. " ++ (getKeyD resp.body "error" (.str "")).display))
        else .error (.editError "Cannot edit persona.")
      (result, [fetchPersonaRequest persona_id, req])

/-- The full-replacement payload delete_persona POSTs: archived true, content
fields taken from the fetched persona (title is the old NAME), description and
greeting fixed constants; it has no avatar_rel_path and no enabled key. -/
def delete_persona_payload (persona_id : String) (old : Persona) (account_id : String) :
    List (String × JSON) :=
  [("archived", .bool true),
   ("avatar_file_name", .str (old.avatarFileName.getD "")),
   ("copyable", .bool false),
   ("default_voice_id", .str ""),
   ("definition", .str old.definition),
   ("description", .str "This is my persona."),
   ("external_id", .str persona_id),
   ("greeting", .str "Hello! This is my persona"),
   ("img_gen_enabled", .bool false),
   ("is_persona", .bool true),
   ("name", .str old.name),
   ("participant__name", .str old.name),
   ("participant__num_interactions", .num 0),
   ("title", .str old.name),
   ("user__id", .str account_id),
   ("user__username", .str old.authorUsername),
   ("visibility", .str "PRIVATE")]

/-- delete_persona: fetches the existing persona (modelled by the fetchOutcome
argument), turning any fetch exception into DeleteError; then POSTs the
archived full-replacement payload to /chat/persona/update/.  Success requires
HTTP 200, JSON status OK and a persona field that is not None, and returns
true; otherwise DeleteError. -/
def delete_persona (persona_id : String) (fetchOutcome : Except Err Persona)
    (account_id : String) (resp : Response) : Except Err Bool × List Request :=
  match fetchOutcome with
  | .error _ =>
    (.error (.deleteError "Cannot delete persona. May be persona does not exist?"),
     [fetchPersonaRequest persona_id])
  | .ok old =>
    let payload := delete_persona_payload persona_id old account_id
    let req : Request :=
      ⟨"https://plus.character.ai/chat/persona/update/", "POST", some (.obj payload)⟩
    let result : Except Err Bool :=
      if resp.status_code = 200 then
        if (getKeyD resp.body "status" .null).eqStr "OK" ∧
            !(getKeyD resp.body "persona" .null).isNone then
          .ok true
        else .error (.deleteError
          ("Cannot delete persona. " ++ (getKeyD resp.body "error" (.str "")).display))
      else .error (.deleteError "Cannot delete persona.")
    (result, [fetchPersonaRequest persona_id, req])

/-! Helper lemmas about the association-list dictionary operations. -/

/-- Looking up a key other than the one just assigned is unchanged. -/
theorem getKey_setKey_ne (l : List (String × JSON)) (k k' : String) (v : JSON)
    (h : k' ≠ k) : getKey (setKey l k v) k' = getKey l k' := by
  induction l with
  | nil => simp [getKey, setKey, h, Ne.symm h]
  | cons p rest ih =>
    obtain ⟨pk, pv⟩ := p
    by_cases hp : pk = k
    · subst hp
      simp [setKey, getKey, h, Ne.symm h]
    · simp [setKey, getKey, hp, ih]

/-- Looking up the key just assigned yields the assigned value. -/
theorem getKey_setKey_self (l : List (String × JSON)) (k : String) (v : JSON) :
    getKey (setKey l k v) k = some v := by
  induction l with
  | nil => simp [getKey, setKey]
  | cons p rest ih =>
    obtain ⟨pk, pv⟩ := p
    by_cases hp : pk = k
    · subst hp
      simp [setKey, getKey]
    · simp [setKey, getKey, hp, ih]

/-- Assigning to a key the value it already holds leaves the dict unchanged. -/
theorem setKey_getKey_self (l : List (String × JSON)) (k : String) (v : JSON)
    (h : getKey l k = some v) : setKey l k v = l := by
  induction l with
  | nil => simp [getKey] at h
  | cons p rest ih =>
    obtain ⟨pk, pv⟩ := p
    by_cases hp : pk = k
    · subst hp
      simp [getKey] at h
      simp [setKey, h]
    · simp [getKey, hp] at h
      simp [setKey, hp, ih h]

/-- C1: the claim says edit_account raises InvalidArgumentError before any
network request exactly when username length is below 2 or equal to 21, name
length is outside 2..50, or bio length exceeds 500, and otherwise performs the
POST.  The source instead guards with len(username) < 2 or len(NAME) > 20
while its own error message speaks about the username, so a username of
length 21 with a valid name passes validation and the POST is issued, and a
valid name of length 25 is rejected without any request.  This theorem
evaluates the embedded code at both failing inputs. -/
theorem c1_edit_account_username_guard_bug_eval :
    (edit_account "ab" (String.mk (List.replicate 21 'u')) "" ""
        ⟨200, [("status", .str "OK")]⟩ =
      (.ok true,
       [⟨"https://plus.character.ai/chat/user/update/", "POST",
         some (.obj [("avatar_type", .str "DEFAULT"), ("bio", .str ""),
                     ("name", .str "ab"),
                     ("username", .str (String.mk (List.replicate 21 'u')))])⟩])) ∧
    (edit_account (String.mk (List.replicate 25 'n')) "user" "" ""
        ⟨200, [("status", .str "OK")]⟩ =
      (.error (.invalidArgumentError
        "Cannot edit account info. Username must be at least 2 characters and no more than 20."),
       [])) := by
  exact ⟨rfl, rfl⟩

/-- C8: the private settings update fails immediately with UpdateError,
issuing no settings fetch and no POST, whenever default_persona_id,
persona_override and voice_override are all unset in its options. -/
theorem c8_update_settings_nothing_to_update (opts : SettingsOptions)
    (fetchResp postResp : Response)
    (h1 : opts.default_persona_id = none) (h2 : opts.persona_override = none)
    (h3 : opts.voice_override = none) :
    update_settings opts fetchResp postResp =
      (.error (.updateError "Cannot update account settings."), []) := by
  simp [update_settings, h1, h2, h3]

/-- C8 witness: concrete options with only character_id set. -/
theorem c8_update_settings_nothing_to_update_witness :
    update_settings ⟨none, none, none, some "c1"⟩ ⟨200, []⟩ ⟨200, []⟩ =
      (.error (.updateError "Cannot update account settings."), []) :=
  c8_update_settings_nothing_to_update ⟨none, none, none, some "c1"⟩
    ⟨200, []⟩ ⟨200, []⟩ rfl rfl rfl

/-- C10: fetch_me on a 200 response whose body has no user key, or whose user
field is JSON null, crashes with an AttributeError from calling .get on None
instead of raising FetchError; and fetch_me raises FetchError only when the
status code is not 200. -/
theorem c10_fetch_me_null_access :
    (∀ body : List (String × JSON), getKey body "user" = none →
      fetch_me ⟨200, body⟩ = .error (.attributeError "object has no attribute get")) ∧
    (∀ body : List (String × JSON), getKey body "user" = some .null →
      fetch_me ⟨200, body⟩ = .error (.attributeError "object has no attribute get")) ∧
    (∀ (r : Response) (msg : String),
      fetch_me r = .error (.fetchError msg) → r.status_code ≠ 200) := by
  refine ⟨?_, ?_, ?_⟩
  · intro body h
    simp [fetch_me, h]
  · intro body h
    simp [fetch_me, h]
  · intro r msg h h200
    rw [fetch_me, if_pos h200] at h
    rcases hy : getKey r.body "user" with - | v
    · rw [hy] at h
      exact Err.noConfusion (Except.error.inj h)
    · cases v <;> rw [hy] at h <;>
        first
          | exact Err.noConfusion (Except.error.inj h)
          | exact Except.noConfusion h

/-- C10 witness: concrete bodies with the user field absent and null, and a
concrete FetchError call with status 404. -/
theorem c10_fetch_me_null_access_witness :
    fetch_me ⟨200, [("x", .num 1)]⟩ =
      .error (.attributeError "object has no attribute get") ∧
    fetch_me ⟨200, [("user", .null)]⟩ =
      .error (.attributeError "object has no attribute get") ∧
    (404 : Nat) ≠ 200 :=
  ⟨c10_fetch_me_null_access.1 [("x", .num 1)] rfl,
   c10_fetch_me_null_access.2.1 [("user", .null)] rfl,
   c10_fetch_me_null_access.2.2 ⟨404, []⟩ "Cannot fetch your account." rfl⟩

/-- C2 counterexample: the claim says a 200 response with the expected named
field present yields the mapped typed result, and that for fetch_my_persona
only a null or missing persona raises FetchError.  Here the persona field IS
present and non-null (the empty JSON object), yet the code raises FetchError,
because it tests Python truthiness of the value rather than presence. -/
theorem c2_fetch_my_persona_present_falsy_counterexample :
    fetch_my_persona ⟨200, [("persona", .obj [])]⟩ =
      .error (.fetchError "Cannot fetch your persona. Maybe persona does not exist?") := rfl

/-- C2 (amended): for every fetch operation a non-200 response always raises
FetchError; a 200 response with the expected named field present with its
expected shape yields the correctly mapped typed result; for list-returning
operations an absent collection field yields the empty list, so an empty
result never raises; and fetch_my_persona on a 200 response raises FetchError
(rather than crashing on null access) whenever the persona value is missing,
null or otherwise falsy, and returns the constructed Persona on any truthy
persona value. -/
theorem c2_fetch_operations_amended :
    (∀ r : Response, r.status_code ≠ 200 →
      fetch_me r = .error (.fetchError "Cannot fetch your account.") ∧
      fetch_my_settings r = .error (.fetchError "Cannot fetch your settings.") ∧
      fetch_my_followers r = .error (.fetchError "Cannot fetch your followers.") ∧
      fetch_my_following r = .error (.fetchError "Cannot fetch your following.") ∧
      fetch_my_persona r =
        .error (.fetchError "Cannot fetch your persona. Maybe persona does not exist?") ∧
      fetch_my_personas r = .error (.fetchError "Cannot fetch your personas.") ∧
      fetch_my_characters r = .error (.fetchError "Cannot fetch your characters.") ∧
      fetch_my_upvoted_characters r =
        .error (.fetchError "Cannot fetch your upvoted characters.") ∧
      fetch_my_voices r = .error (.fetchError "Cannot fetch your voices.")) ∧
    (∀ body kvs, getKey body "user" = some (.obj kvs) →
      fetch_me ⟨200, body⟩ = .ok ⟨getKeyD kvs "user" .null⟩) ∧
    (∀ body, fetch_my_settings ⟨200, body⟩ = .ok body) ∧
    (∀ body v, getKey body "followers" = some v →
      fetch_my_followers ⟨200, body⟩ = .ok v) ∧
    (∀ body, getKey body "followers" = none →
      fetch_my_followers ⟨200, body⟩ = .ok (.arr [])) ∧
    (∀ body v, getKey body "following" = some v →
      fetch_my_following ⟨200, body⟩ = .ok v) ∧
    (∀ body, getKey body "following" = none →
      fetch_my_following ⟨200, body⟩ = .ok (.arr [])) ∧
    (∀ body p, getKey body "persona" = some p → p.truthy = true →
      fetch_my_persona ⟨200, body⟩ = .ok ⟨p⟩) ∧
    (∀ body, (getKeyD body "persona" .null).truthy = false →
      fetch_my_persona ⟨200, body⟩ =
        .error (.fetchError "Cannot fetch your persona. Maybe persona does not exist?")) ∧
    (∀ body xs, getKey body "personas" = some (.arr xs) →
      fetch_my_personas ⟨200, body⟩ = .ok (xs.map fun j => (⟨j⟩ : RawPersona))) ∧
    (∀ body, getKey body "personas" = none → fetch_my_personas ⟨200, body⟩ = .ok []) ∧
    (∀ body xs, getKey body "characters" = some (.arr xs) →
      fetch_my_characters ⟨200, body⟩ = .ok (xs.map fun j => (⟨j⟩ : RawCharacterShort))) ∧
    (∀ body, getKey body "characters" = none → fetch_my_characters ⟨200, body⟩ = .ok []) ∧
    (∀ body xs, getKey body "characters" = some (.arr xs) →
      fetch_my_upvoted_characters ⟨200, body⟩ =
        .ok (xs.map fun j => (⟨j⟩ : RawCharacterShort))) ∧
    (∀ body, getKey body "characters" = none →
      fetch_my_upvoted_characters ⟨200, body⟩ = .ok []) ∧
    (∀ body xs, getKey body "voices" = some (.arr xs) →
      fetch_my_voices ⟨200, body⟩ = .ok (xs.map fun j => (⟨j⟩ : RawVoice))) ∧
    (∀ body, getKey body "voices" = none → fetch_my_voices ⟨200, body⟩ = .ok []) := by
  refine ⟨?_, ?_, ?_, ?_, ?_, ?_, ?_, ?_, ?_, ?_, ?_, ?_, ?_, ?_, ?_, ?_, ?_⟩
  · intro r h
    refine ⟨?_, ?_, ?_, ?_, ?_, ?_, ?_, ?_, ?_⟩ <;>
      simp [fetch_me, fetch_my_settings, fetch_my_followers, fetch_my_following,
        fetch_my_persona, fetch_my_personas, fetch_my_characters,
        fetch_my_upvoted_characters, fetch_my_voices, h]
  · intro body kvs h
    simp [fetch_me, h, getKeyD]
  · intro body
    simp [fetch_my_settings]
  · intro body v h
    simp [fetch_my_followers, getKeyD, h]
  · intro body h
    simp [fetch_my_followers, getKeyD, h]
  · intro body v h
    simp [fetch_my_following, getKeyD, h]
  · intro body h
    simp [fetch_my_following, getKeyD, h]
  · intro body p h ht
    simp [fetch_my_persona, getKeyD, h, ht]
  · intro body ht
    simp [fetch_my_persona, ht]
  · intro body xs h
    simp [fetch_my_personas, getKeyD, h, pyIter]
  · intro body h
    simp [fetch_my_personas, getKeyD, h, pyIter]
  · intro body xs h
    simp [fetch_my_characters, getKeyD, h, pyIter]
  · intro body h
    simp [fetch_my_characters, getKeyD, h, pyIter]
  · intro body xs h
    simp [fetch_my_upvoted_characters, getKeyD, h, pyIter]
  · intro body h
    simp [fetch_my_upvoted_characters, getKeyD, h, pyIter]
  · intro body xs h
    simp [fetch_my_voices, getKeyD, h, pyIter]
  · intro body h
    simp [fetch_my_voices, getKeyD, h, pyIter]

/-- C2 witness: the amended theorem applied at concrete responses, one
instance per conjunct. -/
theorem c2_fetch_operations_amended_witness :
    fetch_me ⟨404, []⟩ = .error (.fetchError "Cannot fetch your account.") ∧
    fetch_me ⟨200, [("user", .obj [("user", .str "u")])]⟩ = .ok ⟨.str "u"⟩ ∧
    fetch_my_settings ⟨200, [("k", .num 3)]⟩ = .ok [("k", .num 3)] ∧
    fetch_my_followers ⟨200, [("followers", .arr [.str "f"])]⟩ = .ok (.arr [.str "f"]) ∧
    fetch_my_followers ⟨200, []⟩ = .ok (.arr []) ∧
    fetch_my_following ⟨200, [("following", .arr [.str "g"])]⟩ = .ok (.arr [.str "g"]) ∧
    fetch_my_following ⟨200, []⟩ = .ok (.arr []) ∧
    fetch_my_persona ⟨200, [("persona", .obj [("name", .str "p")])]⟩ =
      .ok ⟨.obj [("name", .str "p")]⟩ ∧
    fetch_my_persona ⟨200, [("persona", .null)]⟩ =
      .error (.fetchError "Cannot fetch your persona. Maybe persona does not exist?") ∧
    fetch_my_personas ⟨200, [("personas", .arr [.obj []])]⟩ = .ok [⟨.obj []⟩] ∧
    fetch_my_personas ⟨200, []⟩ = .ok [] ∧
    fetch_my_characters ⟨200, [("characters", .arr [.obj []])]⟩ = .ok [⟨.obj []⟩] ∧
    fetch_my_characters ⟨200, []⟩ = .ok [] ∧
    fetch_my_upvoted_characters ⟨200, [("characters", .arr [.obj []])]⟩ = .ok [⟨.obj []⟩] ∧
    fetch_my_upvoted_characters ⟨200, []⟩ = .ok [] ∧
    fetch_my_voices ⟨200, [("voices", .arr [.obj []])]⟩ = .ok [⟨.obj []⟩] ∧
    fetch_my_voices ⟨200, []⟩ = .ok [] := by
  obtain ⟨h1, h2, h3, h4, h5, h6, h7, h8, h9, h10, h11, h12, h13, h14, h15, h16, h17⟩ :=
    c2_fetch_operations_amended
  exact ⟨(h1 ⟨404, []⟩ (by decide)).1,
    h2 [("user", .obj [("user", .str "u")])] [("user", .str "u")] rfl,
    h3 [("k", .num 3)],
    h4 [("followers", .arr [.str "f"])] (.arr [.str "f"]) rfl,
    h5 [] rfl,
    h6 [("following", .arr [.str "g"])] (.arr [.str "g"]) rfl,
    h7 [] rfl,
    h8 [("persona", .obj [("name", .str "p")])] (.obj [("name", .str "p")]) rfl rfl,
    h9 [("persona", .null)] rfl,
    h10 [("personas", .arr [.obj []])] [.obj []] rfl,
    h11 [] rfl,
    h12 [("characters", .arr [.obj []])] [.obj []] rfl,
    h13 [] rfl,
    h14 [("characters", .arr [.obj []])] [.obj []] rfl,
    h15 [] rfl,
    h16 [("voices", .arr [.obj []])] [.obj []] rfl,
    h17 [] rfl⟩

/-- C3: the settings update is a read-modify-write: with persona_override p
and character_id c given (and no default_persona_id), it POSTs back the full
fetched settings object in which only the personaOverrides mapping has been
changed, nesting c to p inside it; every other top-level settings key is
unchanged.  In particular, on existing settings with default_persona_id p0 and
an empty personaOverrides mapping, the override setter for character c1 and
persona p1 submits exactly those settings with personaOverrides mapping c1 to
p1 and default_persona_id still p0. -/
theorem c3_settings_read_modify_write :
    (∀ (S kvs : List (String × JSON)) (c p : String) (postResp : Response),
      getKey S "personaOverrides" = some (.obj kvs) →
      (update_settings ⟨none, some p, none, some c⟩ ⟨200, S⟩ postResp).2 =
        [settingsFetchRequest,
         ⟨"https://plus.character.ai/chat/user/update_settings/", "POST",
          some (.obj (setKey S "personaOverrides" (.obj (setKey kvs c (.str p)))))⟩] ∧
      ∀ k : String, k ≠ "personaOverrides" →
        getKey (setKey S "personaOverrides" (.obj (setKey kvs c (.str p)))) k =
          getKey S k) ∧
    (update_settings ⟨none, some "p1", none, some "c1"⟩
        ⟨200, [("default_persona_id", .str "p0"), ("personaOverrides", .obj [])]⟩
        ⟨200, [("success", .bool true), ("settings", .obj [])]⟩).2 =
      [settingsFetchRequest,
       ⟨"https://plus.character.ai/chat/user/update_settings/", "POST",
        some (.obj [("default_persona_id", .str "p0"),
                    ("personaOverrides", .obj [("c1", .str "p1")])])⟩] := by
  refine ⟨?_, rfl⟩
  intro S kvs c p postResp h
  refine ⟨?_, ?_⟩
  · simp [update_settings, fetch_my_settings, getKeyD, h]
  · intro k hk
    exact getKey_setKey_ne S "personaOverrides" k (.obj (setKey kvs c (.str p))) hk

/-- C3 witness: the general read-modify-write part applied at concrete
settings that also carry an unrelated key, which is preserved. -/
theorem c3_settings_read_modify_write_witness :
    (update_settings ⟨none, some "p9", none, some "c9"⟩
        ⟨200, [("other", .num 7), ("personaOverrides", .obj [("c0", .str "pX")])]⟩
        ⟨200, [("success", .bool true)]⟩).2 =
      [settingsFetchRequest,
       ⟨"https://plus.character.ai/chat/user/update_settings/", "POST",
        some (.obj [("other", .num 7),
                    ("personaOverrides",
                     .obj [("c0", .str "pX"), ("c9", .str "p9")])])⟩] ∧
    getKey (setKey [("other", .num 7), ("personaOverrides", .obj [("c0", .str "pX")])]
        "personaOverrides" (.obj (setKey [("c0", .str "pX")] "c9" (.str "p9")))) "other" =
      getKey [("other", .num 7), ("personaOverrides", .obj [("c0", .str "pX")])] "other" :=
  ⟨(c3_settings_read_modify_write.1
      [("other", .num 7), ("personaOverrides", .obj [("c0", .str "pX")])]
      [("c0", .str "pX")] "c9" "p9" ⟨200, [("success", .bool true)]⟩ rfl).1,
   (c3_settings_read_modify_write.1
      [("other", .num 7), ("personaOverrides", .obj [("c0", .str "pX")])]
      [("c0", .str "pX")] "c9" "p9" ⟨200, [("success", .bool true)]⟩ rfl).2
     "other" (by decide)⟩

/-- C6 counterexample: the claim says set_voice returns true if and only if
the response is HTTP 200 with a JSON success flag EQUAL TO true.  Here the
success flag is the number 1, not the boolean true, yet the call returns true,
because the code only tests Python truthiness of the flag. -/
theorem c6_set_voice_truthy_flag_counterexample :
    set_voice "c1" (some "v1") ⟨200, [("success", .num 1)]⟩ =
      (.ok true,
       [⟨voiceOverrideUrl "c1" "update", "POST",
         some (.obj [("voice_id", .str "v1")])⟩]) := rfl

/-- C6 (amended): set_voice with voice id v1 issues a POST to the
per-character voice_override update path with body voice_id v1; unset_voice
issues a POST to the voice_override delete path with no body; both return
true if and only if the response has HTTP status 200 and a truthy JSON
success flag (for a boolean flag, exactly when it is true), and raise
SetError otherwise. -/
theorem c6_set_unset_voice_amended :
    (∀ (c : String) (r : Response), (set_voice c (some "v1") r).2 =
      [⟨voiceOverrideUrl c "update", "POST", some (.obj [("voice_id", .str "v1")])⟩]) ∧
    (∀ (c : String) (r : Response), (unset_voice c r).2 =
      [⟨voiceOverrideUrl c "delete", "POST", none⟩]) ∧
    (∀ (c : String) (v : Option String) (r : Response),
      (set_voice c v r).1 = .ok true ↔
        (r.status_code = 200 ∧ (getKeyD r.body "success" (.bool false)).truthy = true)) ∧
    (∀ (c : String) (v : Option String) (r : Response),
      ¬(r.status_code = 200 ∧ (getKeyD r.body "success" (.bool false)).truthy = true) →
        (set_voice c v r).1 = .error (.setError "Cannot set voice.")) := by
  refine ⟨fun c r => rfl, fun c r => rfl, ?_, ?_⟩
  · intro c v r
    by_cases h : r.status_code = 200 ∧ (getKeyD r.body "success" (.bool false)).truthy = true
    · simp [set_voice, h]
    · simp [set_voice, h]
  · intro c v r h
    simp [set_voice, h]

/-- C6 witness: success flag true returns true, success flag false raises. -/
theorem c6_set_unset_voice_amended_witness :
    (set_voice "c1" (some "v1") ⟨200, [("success", .bool true)]⟩).1 = .ok true ∧
    (set_voice "c1" (some "v1") ⟨200, [("success", .bool false)]⟩).1 =
      .error (.setError "Cannot set voice.") ∧
    (unset_voice "c2" ⟨200, [("success", .bool true)]⟩).2 =
      [⟨voiceOverrideUrl "c2" "delete", "POST", none⟩] :=
  ⟨(c6_set_unset_voice_amended.2.2.1 "c1" (some "v1")
      ⟨200, [("success", .bool true)]⟩).mpr ⟨rfl, rfl⟩,
   c6_set_unset_voice_amended.2.2.2 "c1" (some "v1")
     ⟨200, [("success", .bool false)]⟩ (by decide),
   c6_set_unset_voice_amended.2.1 "c2" ⟨200, [("success", .bool true)]⟩⟩

/-- C5: for every edit_persona call whose preliminary fetch succeeds (so in
particular validation passed), the submitted full-replacement payload merges
the caller-supplied fields over the fetched values: definition and name (and
participant__name) fall back to the old persona values when the argument is
empty, both avatar fields are overwritten with the new path exactly when a
non-empty avatar path is given (otherwise both carry the old avatar file
name), and title is set to the raw name argument with no fallback. -/
theorem c5_edit_persona_payload_merge :
    (∀ (pid nm defn avatar : String) (p : Persona) (uid : String) (resp : Response),
      (nm = "" ∨ (3 ≤ nm.length ∧ nm.length ≤ 20)) →
      (defn = "" ∨ defn.length ≤ 728) →
      (edit_persona pid nm defn avatar (.ok p) uid resp).2 =
        [fetchPersonaRequest pid,
         ⟨"https://plus.character.ai/chat/persona/update/", "POST",
          some (.obj (edit_persona_payload pid nm defn avatar p uid))⟩]) ∧
    (∀ (pid nm defn avatar : String) (p : Persona) (uid : String),
      getKey (edit_persona_payload pid nm defn avatar p uid) "definition" =
        some (.str (if defn = "" then p.definition else defn)) ∧
      getKey (edit_persona_payload pid nm defn avatar p uid) "name" =
        some (.str (if nm = "" then p.name else nm)) ∧
      getKey (edit_persona_payload pid nm defn avatar p uid) "participant__name" =
        some (.str (if nm = "" then p.name else nm)) ∧
      getKey (edit_persona_payload pid nm defn avatar p uid) "title" =
        some (.str nm) ∧
      getKey (edit_persona_payload pid nm defn avatar p uid) "avatar_file_name" =
        some (.str (if avatar = "" then p.avatarFileName.getD "" else avatar)) ∧
      getKey (edit_persona_payload pid nm defn avatar p uid) "avatar_rel_path" =
        some (.str (if avatar = "" then p.avatarFileName.getD "" else avatar))) := by
  constructor
  · intro pid nm defn avatar p uid resp h1 h2
    have hv1 : ¬(nm ≠ "" ∧ (nm.length < 3 ∨ nm.length > 20)) := by
      rcases h1 with h | ⟨ha, hb⟩
      · simp [h]
      · rintro ⟨-, hc | hc⟩ <;> omega
    have hv2 : ¬(defn ≠ "" ∧ defn.length > 728) := by
      rcases h2 with h | h
      · simp [h]
      · rintro ⟨-, hc⟩
        omega
    simp [edit_persona, hv1, hv2]
  · intro pid nm defn avatar p uid
    by_cases ha : avatar = ""
    · subst ha
      refine ⟨?_, ?_, ?_, ?_, ?_, ?_⟩ <;> simp [edit_persona_payload, getKey]
    · refine ⟨?_, ?_, ?_, ?_, ?_, ?_⟩ <;>
        simp [edit_persona_payload, getKey, setKey, ha]

/-- C5 witness: the flow part applied with empty arguments over a concrete
fetched persona (everything falls back except title), plus the payload
lookups at a call supplying a new avatar path. -/
theorem c5_edit_persona_payload_merge_witness :
    (edit_persona "pid" "" "" "" (.ok ⟨"Old", "olddef", "Hi", none, "auth"⟩) "u"
        ⟨200, []⟩).2 =
      [fetchPersonaRequest "pid",
       ⟨"https://plus.character.ai/chat/persona/update/", "POST",
        some (.obj (edit_persona_payload "pid" "" "" ""
          ⟨"Old", "olddef", "Hi", none, "auth"⟩ "u"))⟩] ∧
    getKey (edit_persona_payload "pid" "Bob" "" "new.png"
        ⟨"Old", "olddef", "Hi", some "old.png", "auth"⟩ "u") "avatar_rel_path" =
      some (.str "new.png") ∧
    getKey (edit_persona_payload "pid" "Bob" "" "new.png"
        ⟨"Old", "olddef", "Hi", some "old.png", "auth"⟩ "u") "title" =
      some (.str "Bob") := by
  refine ⟨?_, ?_, ?_⟩
  · have h := c5_edit_persona_payload_merge.1 "pid" "" "" ""
      ⟨"Old", "olddef", "Hi", none, "auth"⟩ "u" ⟨200, []⟩ (Or.inl rfl) (Or.inl rfl)
    exact h.trans (by rfl)
  · exact (c5_edit_persona_payload_merge.2 "pid" "Bob" "" "new.png"
      ⟨"Old", "olddef", "Hi", some "old.png", "auth"⟩ "u").2.2.2.2.2.trans (by rfl)
  · exact (c5_edit_persona_payload_merge.2 "pid" "Bob" "" "new.png"
      ⟨"Old", "olddef", "Hi", some "old.png", "auth"⟩ "u").2.2.2.1

/-- C7: when the preliminary fetch inside edit_persona or delete_persona
raises any exception whatsoever, the operation surfaces it as EditError or
DeleteError with a fixed message, never as the raw fetch exception; and
set_default_persona and set_persona (with their unset variants, which
delegate to them) turn every failure of the inner settings update into
SetError with a fixed message, discarding the original cause. -/
theorem c7_exception_wrapping :
    (∀ (pid nm defn avatar : String) (e : Err) (uid : String) (resp : Response),
      ¬(nm ≠ "" ∧ (nm.length < 3 ∨ nm.length > 20)) →
      ¬(defn ≠ "" ∧ defn.length > 728) →
      edit_persona pid nm defn avatar (.error e) uid resp =
        (.error (.editError "Cannot edit persona. May be persona does not exist?"),
         [fetchPersonaRequest pid])) ∧
    (∀ (pid : String) (e : Err) (uid : String) (resp : Response),
      delete_persona pid (.error e) uid resp =
        (.error (.deleteError "Cannot delete persona. May be persona does not exist?"),
         [fetchPersonaRequest pid])) ∧
    (∀ (pid : Option String) (f post : Response) (e : Err),
      (update_settings ⟨some (pid.getD ""), none, none, none⟩ f post).1 = .error e →
      set_default_persona pid f post =
        (.error (.setError "Cannot set default persona."),
         (update_settings ⟨some (pid.getD ""), none, none, none⟩ f post).2)) ∧
    (∀ (c : String) (pid : Option String) (f post : Response) (e : Err),
      (update_settings ⟨none, some (pid.getD ""), none, some c⟩ f post).1 = .error e →
      set_persona c pid f post =
        (.error (.setError "Cannot set persona."),
         (update_settings ⟨none, some (pid.getD ""), none, some c⟩ f post).2)) ∧
    (∀ f post : Response, unset_default_persona f post = set_default_persona none f post) ∧
    (∀ (c : String) (f post : Response), unset_persona c f post = set_persona c none f post) := by
  refine ⟨?_, fun pid e uid resp => rfl, ?_, ?_, fun f post => rfl, fun c f post => rfl⟩
  · intro pid nm defn avatar e uid resp h1 h2
    simp [edit_persona, h1, h2]
  · intro pid f post e h
    rcases hu : update_settings ⟨some (pid.getD ""), none, none, none⟩ f post with ⟨r, reqs⟩
    rw [hu] at h
    replace h : r = .error e := h
    subst h
    simp [set_default_persona, hu]
  · intro c pid f post e h
    rcases hu : update_settings ⟨none, some (pid.getD ""), none, some c⟩ f post with ⟨r, reqs⟩
    rw [hu] at h
    replace h : r = .error e := h
    subst h
    simp [set_persona, hu]

/-- C7 witness: a failed persona fetch surfaces as EditError and DeleteError,
and a settings fetch failing with status 500 surfaces as SetError from both
set_default_persona and set_persona. -/
theorem c7_exception_wrapping_witness :
    edit_persona "pid" "" "" "" (.error (.fetchError "boom")) "u" ⟨200, []⟩ =
      (.error (.editError "Cannot edit persona. May be persona does not exist?"),
       [fetchPersonaRequest "pid"]) ∧
    delete_persona "pid" (.error (.typeError "boom")) "u" ⟨200, []⟩ =
      (.error (.deleteError "Cannot delete persona. May be persona does not exist?"),
       [fetchPersonaRequest "pid"]) ∧
    set_default_persona (some "p1") ⟨500, []⟩ ⟨200, []⟩ =
      (.error (.setError "Cannot set default persona."), [settingsFetchRequest]) ∧
    set_persona "c1" none ⟨500, []⟩ ⟨200, []⟩ =
      (.error (.setError "Cannot set persona."), [settingsFetchRequest]) ∧
    unset_default_persona ⟨500, []⟩ ⟨200, []⟩ = set_default_persona none ⟨500, []⟩ ⟨200, []⟩ :=
  ⟨c7_exception_wrapping.1 "pid" "" "" "" (.fetchError "boom") "u" ⟨200, []⟩
     (by simp) (by simp),
   c7_exception_wrapping.2.1 "pid" (.typeError "boom") "u" ⟨200, []⟩,
   (c7_exception_wrapping.2.2.1 (some "p1") ⟨500, []⟩ ⟨200, []⟩
     (.fetchError "Cannot fetch your settings.") rfl).trans (by rfl),
   (c7_exception_wrapping.2.2.2.1 "c1" none ⟨500, []⟩ ⟨200, []⟩
     (.fetchError "Cannot fetch your settings.") rfl).trans (by rfl),
   c7_exception_wrapping.2.2.2.2.1 ⟨500, []⟩ ⟨200, []⟩⟩

/-- C9: unset_persona is idempotent on an already-unset character: whenever
the fetched settings already map that character to the empty-string persona
override, the call submits exactly the fetched settings object back,
unchanged, and returns true on a successful update response; since the
submitted payload equals the stored settings, a repeated call under the same
server state issues the very same settings payload and succeeds again. -/
theorem c9_unset_persona_idempotent (S kvs : List (String × JSON)) (c : String)
    (post : Response)
    (h1 : getKey S "personaOverrides" = some (.obj kvs))
    (h2 : getKey kvs c = some (.str ""))
    (h3 : post.status_code = 200)
    (h4 : (getKeyD post.body "success" (.bool false)).truthy = true) :
    unset_persona c ⟨200, S⟩ post =
      (.ok true,
       [settingsFetchRequest,
        ⟨"https://plus.character.ai/chat/user/update_settings/", "POST",
         some (.obj S)⟩]) := by
  have e1 : setKey kvs c (.str "") = kvs := setKey_getKey_self kvs c (.str "") h2
  have e2 : setKey S "personaOverrides" (.obj kvs) = S :=
    setKey_getKey_self S "personaOverrides" (.obj kvs) h1
  simp only [getKeyD] at h4
  simp [unset_persona, set_persona, update_settings, fetch_my_settings,
    getKeyD, h1, e1, e2, h3, h4]

/-- C9 witness: concrete settings in which character c1 is already unset. -/
theorem c9_unset_persona_idempotent_witness :
    unset_persona "c1" ⟨200, [("personaOverrides", .obj [("c1", .str "")])]⟩
        ⟨200, [("success", .bool true)]⟩ =
      (.ok true,
       [settingsFetchRequest,
        ⟨"https://plus.character.ai/chat/user/update_settings/", "POST",
         some (.obj [("personaOverrides", .obj [("c1", .str "")])])⟩]) :=
  c9_unset_persona_idempotent [("personaOverrides", .obj [("c1", .str "")])]
    [("c1", .str "")] "c1" ⟨200, [("success", .bool true)]⟩ rfl rfl rfl rfl

/-- C4 counterexample: the claim says delete_persona submits the same
full-replacement payload shape as edit_persona except with archived true and
every content field (name, definition, title, avatar, greeting, etc.)
preserved unchanged from the fetched persona.  At this concrete input the
fetched persona has greeting "Hi there", yet the submitted payload carries the
hardcoded greeting constant; moreover the delete payload has no enabled and no
avatar_rel_path key, both of which the edit payload has, so the shape differs
by more than the archived flag.  The first conjunct shows the submitted
payload through the actual delete_persona flow. -/
theorem c4_delete_payload_divergence_counterexample :
    (delete_persona "pid" (.ok ⟨"Alice", "likes tea", "Hi there", some "a.png", "auth"⟩)
        "uid" ⟨200, [("status", .str "OK"), ("persona", .obj [("x", .null)])]⟩ =
      (.ok true,
       [fetchPersonaRequest "pid",
        ⟨"https://plus.character.ai/chat/persona/update/", "POST",
         some (.obj (delete_persona_payload "pid"
           ⟨"Alice", "likes tea", "Hi there", some "a.png", "auth"⟩ "uid"))⟩])) ∧
    getKey (delete_persona_payload "pid"
        ⟨"Alice", "likes tea", "Hi there", some "a.png", "auth"⟩ "uid") "greeting" =
      some (.str "Hello! This is my persona") ∧
    getKey (delete_persona_payload "pid"
        ⟨"Alice", "likes tea", "Hi there", some "a.png", "auth"⟩ "uid") "enabled" = none ∧
    getKey (delete_persona_payload "pid"
        ⟨"Alice", "likes tea", "Hi there", some "a.png", "auth"⟩ "uid") "avatar_rel_path" =
      none ∧
    getKey (edit_persona_payload "pid" "" "" ""
        ⟨"Alice", "likes tea", "Hi there", some "a.png", "auth"⟩ "uid") "enabled" =
      some (.bool false) ∧
    getKey (edit_persona_payload "pid" "" "" ""
        ⟨"Alice", "likes tea", "Hi there", some "a.png", "auth"⟩ "uid") "avatar_rel_path" =
      some (.str "a.png") :=
  ⟨rfl, rfl, rfl, rfl, rfl, rfl⟩

/-- C4 (amended): delete_persona first fetches the existing persona (raising
DeleteError if the fetch fails), then submits a full-replacement payload close
to the edit_persona shape but with archived true and without the
avatar_rel_path and enabled keys; name, definition, avatar file name and
author username are preserved unchanged from the fetched persona, title is set
to the fetched persona NAME, and greeting and description are fixed constants.
On HTTP 200 with status OK and a non-null persona field it returns true, and
in every other case it raises DeleteError. -/
theorem c4_delete_persona_amended :
    (∀ (pid : String) (e : Err) (uid : String) (resp : Response),
      delete_persona pid (.error e) uid resp =
        (.error (.deleteError "Cannot delete persona. May be persona does not exist?"),
         [fetchPersonaRequest pid])) ∧
    (∀ (pid uid : String) (p : Persona) (resp : Response),
      (delete_persona pid (.ok p) uid resp).2 =
        [fetchPersonaRequest pid,
         ⟨"https://plus.character.ai/chat/persona/update/", "POST",
          some (.obj (delete_persona_payload pid p uid))⟩]) ∧
    (∀ (pid uid : String) (p : Persona),
      getKey (delete_persona_payload pid p uid) "archived" = some (.bool true) ∧
      getKey (delete_persona_payload pid p uid) "name" = some (.str p.name) ∧
      getKey (delete_persona_payload pid p uid) "definition" = some (.str p.definition) ∧
      getKey (delete_persona_payload pid p uid) "avatar_file_name" =
        some (.str (p.avatarFileName.getD "")) ∧
      getKey (delete_persona_payload pid p uid) "user__username" =
        some (.str p.authorUsername) ∧
      getKey (delete_persona_payload pid p uid) "title" = some (.str p.name) ∧
      getKey (delete_persona_payload pid p uid) "greeting" =
        some (.str "Hello! This is my persona") ∧
      getKey (delete_persona_payload pid p uid) "description" =
        some (.str "This is my persona.") ∧
      getKey (delete_persona_payload pid p uid) "external_id" = some (.str pid) ∧
      getKey (delete_persona_payload pid p uid) "user__id" = some (.str uid) ∧
      getKey (delete_persona_payload pid p uid) "enabled" = none ∧
      getKey (delete_persona_payload pid p uid) "avatar_rel_path" = none) ∧
    (∀ (pid uid : String) (p : Persona) (resp : Response),
      resp.status_code = 200 →
      (getKeyD resp.body "status" .null).eqStr "OK" = true →
      (getKeyD resp.body "persona" .null).isNone = false →
      (delete_persona pid (.ok p) uid resp).1 = .ok true) ∧
    (∀ (pid uid : String) (p : Persona) (resp : Response),
      resp.status_code ≠ 200 →
      (delete_persona pid (.ok p) uid resp).1 =
        .error (.deleteError "Cannot delete persona.")) ∧
    (∀ (pid uid : String) (p : Persona) (resp : Response),
      resp.status_code = 200 →
      ¬((getKeyD resp.body "status" .null).eqStr "OK" = true ∧
        (getKeyD resp.body "persona" .null).isNone = false) →
      (delete_persona pid (.ok p) uid resp).1 =
        .error (.deleteError
          ("Cannot delete persona. " ++ (getKeyD resp.body "error" (.str "")).display))) := by
  refine ⟨fun pid e uid resp => rfl, fun pid uid p resp => rfl, ?_, ?_, ?_, ?_⟩
  · intro pid uid p
    refine ⟨?_, ?_, ?_, ?_, ?_, ?_, ?_, ?_, ?_, ?_, ?_, ?_⟩ <;>
      simp [delete_persona_payload, getKey]
  · intro pid uid p resp h1 h2 h3
    simp [delete_persona, h1, h2, h3]
  · intro pid uid p resp h1
    simp [delete_persona, h1]
  · intro pid uid p resp h1 h2
    rw [not_and_or] at h2
    rcases h2 with h2 | h2 <;>
      simp [delete_persona, h1, Bool.not_eq_true] at h2 ⊢ <;> simp [h2]

/-- C4 witness: the amended theorem applied at a concrete persona and at
concrete success and failure responses. -/
theorem c4_delete_persona_amended_witness :
    getKey (delete_persona_payload "pid" ⟨"A", "d", "g", none, "auth"⟩ "uid") "archived" =
      some (.bool true) ∧
    (delete_persona "pid" (.ok ⟨"A", "d", "g", none, "auth"⟩) "uid"
        ⟨200, [("status", .str "OK"), ("persona", .obj [("y", .num 2)])]⟩).1 = .ok true ∧
    (delete_persona "pid" (.ok ⟨"A", "d", "g", none, "auth"⟩) "uid" ⟨500, []⟩).1 =
      .error (.deleteError "Cannot delete persona.") ∧
    (delete_persona "pid" (.ok ⟨"A", "d", "g", none, "auth"⟩) "uid"
        ⟨200, [("status", .str "OK"), ("persona", .null), ("error", .str "no")]⟩).1 =
      .error (.deleteError "Cannot delete persona. no") :=
  ⟨(c4_delete_persona_amended.2.2.1 "pid" "uid" ⟨"A", "d", "g", none, "auth"⟩).1,
   c4_delete_persona_amended.2.2.2.1 "pid" "uid" ⟨"A", "d", "g", none, "auth"⟩
     ⟨200, [("status", .str "OK"), ("persona", .obj [("y", .num 2)])]⟩ rfl rfl rfl,
   c4_delete_persona_amended.2.2.2.2.1 "pid" "uid" ⟨"A", "d", "g", none, "auth"⟩
     ⟨500, []⟩ (by decide),
   (c4_delete_persona_amended.2.2.2.2.2 "pid" "uid" ⟨"A", "d", "g", none, "auth"⟩
     ⟨200, [("status", .str "OK"), ("persona", .null), ("error", .str "no")]⟩ rfl
     (by decide)).trans (by rfl)⟩

end PyCharacterAI
